import Mathlib

set_option maxHeartbeats 1000000

/-! Shallow embedding of the accounting-agent demo's concurrent LLM task
pipeline: `src/core/llm_client.py` (dispatch, aggregation, fallback
parsing), `src/core/task_engine.py` (orchestration and Excel write),
`src/core/invoice_checker.py` (CheckResult validation) and
`src/core/base_llm_service.py` (input validators). -/

/-- Model of a Python JSON value (the result of `json.loads`). -/
inductive Json where
  | null
  | bool (b : Bool)
  | num (n : Int)
  | str (s : String)
  | arr (items : List Json)
  | obj (fields : List (String × Json))
  deriving Repr

/-- Test whether `pat` is a prefix of `s` (used to model Python substring
search). -/
def leadsWith : List Char → List Char → Bool
  | [], _ => true
  | _ :: _, [] => false
  | a :: as, b :: bs => a == b && leadsWith as bs

/-- First index at which `pat` occurs in `s`: Python `str.find`, with `none`
for the -1 "not found" result. -/
def pyFind (pat : List Char) : List Char → Option Nat
  | [] => if leadsWith pat [] then some 0 else none
  | c :: rest =>
    if leadsWith pat (c :: rest) then some 0
    else (pyFind pat rest).map (· + 1)

/-- Index of the last occurrence of the character `c`: Python `str.rfind`,
with `none` for the -1 "not found" result. -/
def pyRfindChar (c : Char) : List Char → Option Nat
  | [] => none
  | x :: rest =>
    match pyRfindChar c rest with
    | some i => some (i + 1)
    | none => if x == c then some 0 else none

/-- Characters removed by Python `str.strip` with no arguments. -/
def isPySpace (c : Char) : Bool :=
  c == ' ' || c == '\t' || c == '\n' || c == '\r' ||
    c == Char.ofNat 11 || c == Char.ofNat 12

/-- Python `str.strip`: drop leading and trailing whitespace. -/
def pyStrip (s : List Char) : List Char :=
  ((s.dropWhile isPySpace).reverse.dropWhile isPySpace).reverse

/-- Opening-brace character, written via its code point. -/
def lbrace : Char := Char.ofNat 123

/-- Closing-brace character, written via its code point. -/
def rbrace : Char := Char.ofNat 125

/-- Model of the JSON-substring extraction inside
`LLMClient._create_fallback_response` (`src/core/llm_client.py`): find the
first start marker (a fenced code block marker or the first opening brace),
cut after the last closing brace of the remaining text, and strip
whitespace. -/
def extractJsonText (s : List Char) : List Char :=
  let json_start :=
    match pyFind ("```json".toList) s with
    | some p => p + 7
    | none =>
      match pyFind ("```".toList) s with
      | some p => p + 3
      | none =>
        match pyFind [lbrace] s with
        | some p => p
        | none => 0
  let remaining := s.drop json_start
  let json_end :=
    match pyRfindChar rbrace remaining with
    | some last => json_start + last + 1
    | none => s.length
  pyStrip ((s.take json_end).drop json_start)

/-- Setting `item["data_id"] = data_id` on a parsed JSON item when the key is
missing; a non-object item makes Python raise `TypeError`, modelled as
`none`. -/
def fillItemId (data_id : String) : Json → Option Json
  | .obj fields =>
    if (fields.lookup "data_id").isSome then some (.obj fields)
    else some (.obj (fields ++ [("data_id", .str data_id)]))
  | _ => none

/-- Model of the `data_id`-filling step of `_create_fallback_response`:
when the parsed value has a `results` list, fill a missing `data_id` into
each of its items. `none` models the cases where the Python loop raises
(non-list `results` value, non-dict item), which the enclosing `except`
turns into the default fallback. A parsed non-dict value mirrors Python's
`in` semantics on lists and strings. -/
def fillResultsIds (data_id : String) : Json → Option Json
  | .obj fields =>
    match fields.lookup "results" with
    | none => some (.obj fields)
    | some (.arr items) =>
      (items.mapM (fillItemId data_id)).map (fun items2 =>
        Json.obj (fields.map (fun kv =>
          if kv.1 == "results" then (kv.1, Json.arr items2) else kv)))
    | some _ => none
  | .arr items =>
    if items.any (fun j => match j with | .str s => s == "results" | _ => false) then
      none
    else some (.arr items)
  | .str s =>
    if (pyFind ("results".toList) s.toList).isSome then none else some (.str s)
  | _ => none

/-- The default degraded dict built by `_create_fallback_response` when even
the salvage parse fails: one result entry with status `"エラー"`, an empty
`result_data` payload, and a note carrying the original error message. -/
def defaultFallback (data_id error_message : String) : Json :=
  .obj
    [("results", .arr
        [.obj
          [("data_id", .str data_id),
           ("task_type", .str "unknown"),
           ("status", .str "エラー"),
           ("result_data", .obj []),
           ("notes", .str ("レスポンス解析エラー: " ++ error_message))]]),
     ("summary", .obj
        [("total_processed", .num 0),
         ("require_review_count", .num 1)]),
     ("processing_notes", .str ("LLMレスポンスの解析に失敗しました: " ++ error_message))]

/-- Model of `LLMClient._create_fallback_response`: salvage a JSON object
substring from the raw LLM text, fill missing `data_id` fields from the
caller-supplied one, and fall back to the default degraded record when any
part of that salvage fails. `parseJson` stands for the external
`json.loads`, with `none` modelling a raised `JSONDecodeError`. -/
def create_fallback_response (parseJson : String → Option Json)
    (response_text data_id error_message : String) : Json :=
  match parseJson (String.mk (extractJsonText response_text.toList)) with
  | some result =>
    match fillResultsIds data_id result with
    | some filled => filled
    | none => defaultFallback data_id error_message
  | none => defaultFallback data_id error_message

/-- Look up a key of a JSON object (Python dict access on a parsed value). -/
def jsonGet (j : Json) (key : String) : Option Json :=
  match j with
  | .obj fields => fields.lookup key
  | _ => none

/-- The `results` list of a parsed JSON dict, when present as a list. -/
def jsonResults (j : Json) : Option (List Json) :=
  match jsonGet j "results" with
  | some (.arr items) => some items
  | _ => none

/-- One entry of the evidence-data dict (`evidence_data["data"][data_id]`):
a bundle of named document texts.  Its contents only feed prompt building,
which the verified claims do not inspect. -/
structure DataEntry where
  documents : List (String × String) := []
  deriving Repr, DecidableEq

/-- Model of the `evidence_data` dict handed to
`LLMClient.process_accounting_task`: the `success` flag and the
insertion-ordered `data` dict of work items.  An empty Python dict behaves
like `success = false` with no data, which this shape also covers. -/
structure EvidenceData where
  success : Bool
  data : List (String × DataEntry)
  deriving Repr, DecidableEq

/-- Model of the dict returned by `LLMClient._process_single_data`: the
`success` flag, the `results` list inside the `data` payload (`none` when
the `data` key or its `results` key is absent), the raw LLM text, the error
message and the reported token count; an `Option` field is `none` exactly
when the corresponding key is missing from the dict. -/
structure SingleResult where
  success : Bool
  data_results : Option (List Json)
  raw_response : Option String
  error : Option String
  tokens_used : Option Nat
  deriving Repr

/-- Outcome of one future in the dispatch loop: either the dict returned by
`_process_single_data`, or an exception raised out of `future.result()`. -/
abbrev ItemOutcome := Except String SingleResult

/-- Mutable state of the `as_completed` collection loop in
`LLMClient.process_accounting_task`: the aggregated record list, token
total, error list, raw-response dict and completed counter, together with
the trace of progress-callback invocations
(`(completed_count, total_count, data_id)` triples in call order). -/
structure LoopState where
  all_results : List Json
  total_tokens : Nat
  processing_errors : List String
  raw_responses : List (String × String)
  completed_count : Nat
  trace : List (Nat × Nat × String)
  deriving Repr

/-- Initial collection-loop state. -/
def initLoopState : LoopState :=
  { all_results := [], total_tokens := 0, processing_errors := [],
    raw_responses := [], completed_count := 0, trace := [] }

/-- One iteration of the collection loop (`for future in as_completed(...)`
in `LLMClient.process_accounting_task`): on a returned dict, a successful
item extends the record list, adds its reported tokens and stores its raw
response, while a failed item only appends an error entry; either way the
progress callback fires with the incremented counter.  A raised
`future.result()` only appends an error entry and never reaches the
callback. -/
def collectStep (total : Nat) (s : LoopState) (p : String × ItemOutcome) :
    LoopState :=
  match p.2 with
  | .ok r =>
    let s1 :=
      if r.success then
        { s with
            all_results := s.all_results ++ r.data_results.getD [],
            total_tokens := s.total_tokens + r.tokens_used.getD 0,
            raw_responses :=
              match r.raw_response with
              | some t => s.raw_responses ++ [(p.1, t)]
              | none => s.raw_responses }
      else
        { s with
            processing_errors := s.processing_errors ++
              ["データ " ++ p.1 ++ ": " ++ r.error.getD "不明なエラー"] }
    { s1 with
        completed_count := s.completed_count + 1,
        trace := s1.trace ++ [(s.completed_count + 1, total, p.1)] }
  | .error e =>
    { s with
        completed_count := s.completed_count + 1,
        processing_errors := s.processing_errors ++
          ["データ " ++ p.1 ++ ": 並列処理エラー - " ++ e] }

/-- Numeric `amount` field of an aggregated record: `r.get("amount")`
guarded by `isinstance(..., (int, float))`. -/
def recordAmount (r : Json) : Option Int :=
  match jsonGet r "amount" with
  | some (.num n) => some n
  | _ => none

/-- Whether a record's `match_status` field equals the given marker. -/
def recordMatchIs (marker : String) (r : Json) : Bool :=
  match jsonGet r "match_status" with
  | some (.str s) => s == marker
  | _ => false

/-- The `summary` part of the aggregated data built at the end of
`process_accounting_task`. -/
structure AggregatedSummary where
  total_processed : Nat
  total_amount : Int
  match_count : Nat
  mismatch_count : Nat
  processing_errors : List String
  deriving Repr

/-- Summary computed from the final collection-loop state. -/
def aggregateSummary (s : LoopState) : AggregatedSummary :=
  { total_processed := s.all_results.length,
    total_amount := (s.all_results.filterMap recordAmount).sum,
    match_count := (s.all_results.filter (recordMatchIs "一致")).length,
    mismatch_count := (s.all_results.filter (recordMatchIs "不一致")).length,
    processing_errors := s.processing_errors }

/-- The `aggregated_data` dict: record list plus summary. -/
structure AggregatedData where
  results : List Json
  summary : AggregatedSummary
  deriving Repr

/-- Return value of `LLMClient.process_accounting_task`: an error dict, or
the success dict carrying the aggregated data, the raw-response map, the
token total and the processing-error list. -/
inductive ProcessResult where
  | failure (error : String)
  | ok (data : AggregatedData) (raw_responses : List (String × String))
      (tokens_used : Nat) (processing_errors : List String)
  deriving Repr

/-- Whether the returned dict has `success = True`. -/
def ProcessResult.isSuccess : ProcessResult → Bool
  | .failure _ => false
  | .ok _ _ _ _ => true

/-- The aggregated `results` list of the returned dict (empty on failure,
whose dict has no data). -/
def ProcessResult.resultsList : ProcessResult → List Json
  | .failure _ => []
  | .ok d _ _ _ => d.results

/-- The `raw_responses` map of the returned dict. -/
def ProcessResult.rawList : ProcessResult → List (String × String)
  | .failure _ => []
  | .ok _ raw _ _ => raw

/-- The `tokens_used` total of the returned dict. -/
def ProcessResult.tokens : ProcessResult → Nat
  | .failure _ => 0
  | .ok _ _ t _ => t

/-- The `processing_errors` list of the returned dict. -/
def ProcessResult.errorsList : ProcessResult → List String
  | .failure _ => []
  | .ok _ _ _ errs => errs

/-- Model of `LLMClient.process_accounting_task`: guard on the client and
the evidence data, then fold the completion-ordered future outcomes through
the collection loop and build the aggregate.  `clientSet` models whether
`self.client` is set; `completion` lists the per-future outcomes in the
order `as_completed` yields them.  The second component is the
progress-callback trace. -/
def process_accounting_task (clientSet : Bool) (ev : EvidenceData)
    (completion : List (String × ItemOutcome)) :
    ProcessResult × List (Nat × Nat × String) :=
  if !clientSet then (.failure "APIキーが設定されていません", [])
  else if !ev.success || ev.data.isEmpty then
    (.failure "有効な証跡データがありません", [])
  else
    let total := ev.data.length
    let s := completion.foldl (collectStep total) initLoopState
    (.ok { results := s.all_results, summary := aggregateSummary s }
       s.raw_responses s.total_tokens s.processing_errors,
     s.trace)

/-- Response of one LLM chat-completion call: message text and reported
total token count. -/
structure LLMCallResponse where
  text : String
  total_tokens : Nat
  deriving Repr, DecidableEq

/-- Model of the `AccountingResult` Pydantic model (`src/core/models.py`). -/
structure AccountingResult where
  data_id : String
  task_type : String
  status : String := "完了"
  result_data : List (String × Json) := []
  calculations : Option (List String) := none
  notes : Option String := none
  deriving Repr

/-- Model of the `AccountingSummary` Pydantic model (`src/core/models.py`). -/
structure AccountingSummary where
  total_processed : Nat
  total_amount : Option Int := none
  matched_count : Option Nat := none
  unmatched_count : Option Nat := none
  require_review_count : Option Nat := none
  deriving Repr

/-- Model of the `LLMAccountingResponse` Pydantic model
(`src/core/models.py`). -/
structure LLMAccountingResponse where
  results : List AccountingResult
  summary : AccountingSummary
  processing_notes : Option String := none
  deriving Repr

/-- The `model_dump` of one validated `AccountingResult`: a dict with the
declared fields in order.  Validated records carry no `amount` or
`match_status` key, so `recordAmount`/`recordMatchIs` find nothing on
them. -/
def AccountingResult.dump (r : AccountingResult) : Json :=
  .obj
    [("data_id", .str r.data_id),
     ("task_type", .str r.task_type),
     ("status", .str r.status),
     ("result_data", .obj r.result_data),
     ("calculations",
        match r.calculations with
        | some xs => .arr (xs.map Json.str)
        | none => .null),
     ("notes", match r.notes with | some n => .str n | none => .null)]

/-- Model of `LLMClient._process_single_data`: run the LLM call (`llmCall`;
`Except.error` models the call raising), validate the returned text against
the `LLMAccountingResponse` schema (`validate` stands for `json.loads` plus
Pydantic validation), filling an empty `data_id` from the item's id.  A
validation failure produces the fallback payload in a `success = false`
dict that still carries the raw text and token count; any exception raised
before the response exists is caught and becomes a `success = false` dict
with only an error message.  Every path returns a dict. -/
def processSingleData (data_id : String)
    (llmCall : Except String LLMCallResponse)
    (validate : String → Except String LLMAccountingResponse)
    (parseJson : String → Option Json) : SingleResult :=
  match llmCall with
  | .error e =>
    { success := false, data_results := none, raw_response := none,
      error := some ("データ " ++ data_id ++ " のLLM処理エラー: " ++ e),
      tokens_used := none }
  | .ok resp =>
    match validate resp.text with
    | .ok vr =>
      let fixed := vr.results.map (fun r =>
        if r.data_id == "" then { r with data_id := data_id } else r)
      { success := true,
        data_results := some (fixed.map AccountingResult.dump),
        raw_response := some resp.text,
        error := none,
        tokens_used := some resp.total_tokens }
    | .error e =>
      { success := false,
        data_results :=
          jsonResults (create_fallback_response parseJson resp.text data_id e),
        raw_response := some resp.text,
        error := some ("レスポンス検証エラー: " ++ e),
        tokens_used := some resp.total_tokens }

/-- Severity levels of the invoice-check schema (`SeverityLevel` in
`src/core/invoice_checker.py`). -/
inductive SeverityLevel where
  | info
  | warning
  | error
  deriving Repr, DecidableEq

/-- Model of the validated `CheckResult` Pydantic model
(`src/core/invoice_checker.py`). -/
structure CheckResult where
  passed : Bool
  severity : SeverityLevel
  message : String
  details : String
  deriving Repr, DecidableEq

/-- Pydantic coercion of a string into the `SeverityLevel` enum. -/
def parseSeverity (s : String) : Except String SeverityLevel :=
  if s == "info" then .ok .info
  else if s == "warning" then .ok .warning
  else if s == "error" then .ok .error
  else .error "value is not a valid enumeration member"

/-- Model of validating a `CheckResult` record
(`src/core/invoice_checker.py`): fields validate in declaration order; the
`severity_consistency_check` validator rejects `severity == error` together
with `passed == true`, and the `message` constraints reject an empty or
whitespace-only message, storing the stripped message otherwise. -/
def mkCheckResult (passed : Bool) (severity message details : String) :
    Except String CheckResult :=
  match parseSeverity severity with
  | .error e => .error e
  | .ok sev =>
    if sev == .error && passed then
      .error "errorの場合、passedはfalseである必要があります"
    else if message.length < 1 then
      .error "ensure this value has at least 1 characters"
    else if String.mk (pyStrip message.toList) == "" then
      .error "メッセージは空にできません"
    else
      .ok { passed := passed, severity := sev,
            message := String.mk (pyStrip message.toList), details := details }

/-- Model of an `ExcelManager` value as the task engine observes it: an
identity and whether its `workbook` attribute is loaded. -/
structure ExcelMgr where
  id : Nat
  workbook : Bool
  deriving Repr, DecidableEq

/-- Output configuration as checked by `validate_output_config`: which of
the three required keys are present. -/
structure OutputConfig where
  has_target_sheet : Bool
  has_start_row : Bool
  has_column_definitions : Bool
  deriving Repr, DecidableEq

/-- One task configuration entry (`config/task_configs.json`). -/
structure TaskConfig where
  name : Option String := none
  output_config : Option OutputConfig := none
  deriving Repr, DecidableEq

/-- Model of `BaseDataValidator.validate_evidence_data`
(`src/core/base_llm_service.py`): the error list for an evidence dict
carrying the `success` and `data` keys (the separate early return for a
completely empty dict coincides with `success = false` and no data). -/
def validate_evidence_data (ev : EvidenceData) : List String :=
  (if !ev.success then ["証跡データが正常に処理されていません"] else []) ++
    (if ev.data.isEmpty then ["証跡データが空です"] else [])

/-- Model of `BaseDataValidator.validate_output_config`: one error per
missing required key, in the checked order. -/
def validate_output_config (oc : OutputConfig) : List String :=
  (if !oc.has_target_sheet then ["出力設定にtarget_sheetが指定されていません"] else []) ++
    ((if !oc.has_start_row then ["出力設定にstart_rowが指定されていません"] else []) ++
      (if !oc.has_column_definitions then
        ["出力設定にcolumn_definitionsが指定されていません"] else []))

/-- Model of the dict returned by `ExcelManager.write_results`
(`src/core/excel_manager.py`). -/
structure WriteResult where
  success : Bool
  error : Option String := none
  written_rows : Nat := 0
  range : Option String := none
  target_sheet : Option String := none
  deriving Repr, DecidableEq

/-- Model of `TaskEngine._write_results_to_excel`: an empty record list is
rejected before any write; otherwise the outcome of the
`excel_manager.write_results` call (`writeCall`, with `Except.error`
modelling a raised exception) is propagated, an exception becoming an error
dict. -/
def write_results_to_excel (results : List Json)
    (writeCall : Except String WriteResult) : WriteResult :=
  if results.isEmpty then
    { success := false, error := some "書き込み可能な結果データがありません" }
  else
    match writeCall with
    | .ok w => w
    | .error e =>
      { success := false, error := some ("Excel書き込みエラー: " ++ e) }

/-- The execution summary built by `TaskEngine._create_execution_summary`
(the fields the claims observe). -/
structure ExecSummary where
  task_name : String
  total_data_count : Nat
  processed_data_count : Nat
  failed_data_count : Nat
  written_rows : Nat
  tokens_used : Nat
  deriving Repr, DecidableEq

/-- Model of `TaskEngine._create_execution_summary`. -/
def create_execution_summary (cfg : TaskConfig) (data : AggregatedData)
    (tokens : Nat) (processing_errors : List String) (w : WriteResult)
    (data_count : Nat) : ExecSummary :=
  { task_name := cfg.name.getD "不明なタスク",
    total_data_count := data_count,
    processed_data_count := data.summary.total_processed,
    failed_data_count := processing_errors.length,
    written_rows := w.written_rows,
    tokens_used := tokens }

/-- Return value of `TaskEngine.execute_accounting_task`, by shape of the
returned dict: a plain error dict from a precondition check, the propagated
LLM-failure dict, the propagated write-result dict, the `handle_exception`
dict of the outer handler, or the full success dict. -/
inductive ExecResult where
  | errorResult (error : String)
  | llmFailure (error : String)
  | writeFailure (w : WriteResult)
  | exceptional (error : String)
  | completed (summary : ExecSummary) (llm_data : AggregatedData)
      (raw_responses : List (String × String)) (tokens_used : Nat)
      (processing_errors : List String) (w : WriteResult)
  deriving Repr

/-- The `success` flag of the returned dict. -/
def ExecResult.successFlag : ExecResult → Bool
  | .errorResult _ => false
  | .llmFailure _ => false
  | .writeFailure w => w.success
  | .exceptional _ => false
  | .completed _ _ _ _ _ _ => true

/-- The aggregated computed records contained in the returned dict, when
the dict carries them: only the full success dict embeds `llm_result` and
with it the record list. -/
def ExecResult.recordsExposed : ExecResult → Option (List Json)
  | .completed _ d _ _ _ _ => some d.results
  | _ => none

/-- The `TaskEngine` fields the claims observe: the engine's own
`excel_manager` field and the loaded task configurations. -/
structure EngineState where
  excel_manager : Option ExcelMgr
  task_configs : List (String × TaskConfig)
  deriving Repr, DecidableEq

/-- Model of `TaskEngine.execute_accounting_task`
(`src/core/task_engine.py`): the precondition checks, the temporary swap of
the engine's `excel_manager` field to the caller-supplied manager, the LLM
dispatch, the Excel write and the summary, returning the result dict
together with the engine state at return.  `clientSet` and `completion`
feed the embedded `process_accounting_task`; `writeCall` models the
`excel_manager.write_results` call; `exceptionDuringSummary` injects an
exception raised inside the guarded region after a successful write — the
representative path into the outer `except`, which restores the saved
manager because `original_excel_manager` is in scope. -/
def execute_accounting_task (st : EngineState) (task_config_id : String)
    (ev : EvidenceData) (excel_manager : Option ExcelMgr)
    (custom_output_config : Option OutputConfig) (clientSet : Bool)
    (completion : List (String × ItemOutcome))
    (writeCall : Except String WriteResult)
    (exceptionDuringSummary : Option String) : ExecResult × EngineState :=
  match st.task_configs.lookup task_config_id with
  | none =>
    (.errorResult ("タスク設定が見つかりません: " ++ task_config_id), st)
  | some task_config =>
    let output_config :=
      match custom_output_config with
      | some oc => oc
      | none => task_config.output_config.getD
          { has_target_sheet := false, has_start_row := false,
            has_column_definitions := false }
    let evErrors := validate_evidence_data ev
    if !evErrors.isEmpty then
      (.errorResult ("証跡データエラー: " ++ String.intercalate ", " evErrors), st)
    else
      let ocErrors := validate_output_config output_config
      if !ocErrors.isEmpty then
        (.errorResult ("出力設定エラー: " ++ String.intercalate ", " ocErrors), st)
      else
        match excel_manager with
        | none => (.errorResult "Excelワークブックが読み込まれていません", st)
        | some mgr =>
          if !mgr.workbook then
            (.errorResult "Excelワークブックが読み込まれていません", st)
          else
            let original := st.excel_manager
            let st1 := { st with excel_manager := some mgr }
            let llm := process_accounting_task clientSet ev completion
            match llm.1 with
            | .failure e => (.llmFailure e, st1)
            | .ok data raw tokens errs =>
              let w := write_results_to_excel data.results writeCall
              if !w.success then (.writeFailure w, st1)
              else
                match exceptionDuringSummary with
                | some e =>
                  (.exceptional ("経理業務タスク実行中にエラーが発生しました: " ++ e),
                   { st1 with excel_manager := original })
                | none =>
                  (.completed
                     (create_execution_summary task_config data tokens errs w
                       ev.data.length)
                     data raw tokens errs w,
                   { st1 with excel_manager := original })

/-- Records a single future outcome contributes to the aggregated list:
the `results` of a successful dict, nothing otherwise. -/
def resContrib (p : String × ItemOutcome) : List Json :=
  match p.2 with
  | .ok r => if r.success then r.data_results.getD [] else []
  | .error _ => []

/-- Raw-response entries a single future outcome contributes to the map:
the raw text of a successful dict that carries one, nothing otherwise. -/
def rawContrib (p : String × ItemOutcome) : List (String × String) :=
  match p.2 with
  | .ok r =>
    if r.success then
      match r.raw_response with
      | some t => [(p.1, t)]
      | none => []
    else []
  | .error _ => []

/-- Tokens a single future outcome contributes to the total: the reported
count of a successful dict, zero otherwise. -/
def tokContrib (p : String × ItemOutcome) : Nat :=
  match p.2 with
  | .ok r => if r.success then r.tokens_used.getD 0 else 0
  | .error _ => 0

/-- Error entries a single future outcome contributes to
`processing_errors`. -/
def errContrib (p : String × ItemOutcome) : List String :=
  match p.2 with
  | .ok r =>
    if r.success then []
    else ["データ " ++ p.1 ++ ": " ++ r.error.getD "不明なエラー"]
  | .error e => ["データ " ++ p.1 ++ ": 並列処理エラー - " ++ e]

/-- Concatenation of per-item contributions, in completion order. -/
def contribCat (f : String × ItemOutcome → List β) :
    List (String × ItemOutcome) → List β
  | [] => []
  | p :: rest => f p ++ contribCat f rest

/-- Sum of per-item numeric contributions over a completion list. -/
def contribSum (f : String × ItemOutcome → Nat) :
    List (String × ItemOutcome) → Nat
  | [] => 0
  | p :: rest => f p + contribSum f rest

/-- Progress-callback invocations the collection loop makes starting from
completed counter `c0`: one per returned dict, none for a raised future,
with the counter incremented on every outcome. -/
def traceFrom (total : Nat) : Nat → List (String × ItemOutcome) →
    List (Nat × Nat × String)
  | _, [] => []
  | c0, p :: rest =>
    match p.2 with
    | .ok _ => (c0 + 1, total, p.1) :: traceFrom total (c0 + 1) rest
    | .error _ => traceFrom total (c0 + 1) rest

/-- The `data_id` field of an aggregated record, for observing record
order. -/
def recordDataId (r : Json) : String :=
  match jsonGet r "data_id" with
  | some (.str s) => s
  | _ => ""

/-- The first entry of a dict's `results` list. -/
def firstResult (j : Json) : Json :=
  match jsonResults j with
  | some (r :: _) => r
  | _ => .null

/-- Fixture: a successful `_process_single_data` dict carrying one record
tagged with the item id. -/
def sampleOk (tag : String) (toks : Nat) : SingleResult :=
  { success := true,
    data_results := some [Json.obj [("data_id", Json.str tag)]],
    raw_response := some ("raw-" ++ tag),
    error := none,
    tokens_used := some toks }

/-- Fixture: a validation-failure `_process_single_data` dict, which still
carries the raw text and the reported token count. -/
def sampleFail (tag : String) (toks : Nat) : SingleResult :=
  { success := false,
    data_results := some [],
    raw_response := some ("raw-" ++ tag),
    error := some "レスポンス検証エラー: bad",
    tokens_used := some toks }

/-- Fixture: one-item evidence data. -/
def sampleEv1 : EvidenceData :=
  { success := true, data := [("a", ⟨[]⟩)] }

/-- Fixture: two-item evidence data, submitted in the order `a`, `b`. -/
def sampleEv2 : EvidenceData :=
  { success := true, data := [("a", ⟨[]⟩), ("b", ⟨[]⟩)] }

/-- Fixture: three-item evidence data. -/
def sampleEv3 : EvidenceData :=
  { success := true, data := [("a", ⟨[]⟩), ("b", ⟨[]⟩), ("c", ⟨[]⟩)] }

/-- Fixture: an engine state with its own manager and one task config with
a complete output config. -/
def sampleEngine : EngineState :=
  { excel_manager := some { id := 0, workbook := true },
    task_configs :=
      [("t", { name := some "T",
               output_config := some
                 { has_target_sheet := true, has_start_row := true,
                   has_column_definitions := true } })] }

/-- Fixture: the caller-supplied Excel manager, distinct from the engine's
own. -/
def sampleMgr : ExcelMgr := { id := 1, workbook := true }

/-- Fixture: a fully-populated output config. -/
def sampleOC : OutputConfig :=
  { has_target_sheet := true, has_start_row := true,
    has_column_definitions := true }

/-! Shared lemmas characterising the collection loop of
`process_accounting_task`. -/

theorem collectStep_all_results (total : Nat) (s : LoopState)
    (p : String × ItemOutcome) :
    (collectStep total s p).all_results = s.all_results ++ resContrib p := by
  obtain ⟨i, o⟩ := p
  cases o with
  | ok r => by_cases hs : r.success <;> simp [collectStep, resContrib, hs]
  | error e => simp [collectStep, resContrib]

theorem collectStep_tokens (total : Nat) (s : LoopState)
    (p : String × ItemOutcome) :
    (collectStep total s p).total_tokens = s.total_tokens + tokContrib p := by
  obtain ⟨i, o⟩ := p
  cases o with
  | ok r => by_cases hs : r.success <;> simp [collectStep, tokContrib, hs]
  | error e => simp [collectStep, tokContrib]

theorem collectStep_errors (total : Nat) (s : LoopState)
    (p : String × ItemOutcome) :
    (collectStep total s p).processing_errors =
      s.processing_errors ++ errContrib p := by
  obtain ⟨i, o⟩ := p
  cases o with
  | ok r => by_cases hs : r.success <;> simp [collectStep, errContrib, hs]
  | error e => simp [collectStep, errContrib]

theorem collectStep_raw (total : Nat) (s : LoopState)
    (p : String × ItemOutcome) :
    (collectStep total s p).raw_responses = s.raw_responses ++ rawContrib p := by
  obtain ⟨i, o⟩ := p
  cases o with
  | ok r =>
    by_cases hs : r.success
    · cases hr : r.raw_response <;> simp [collectStep, rawContrib, hs, hr]
    · simp [collectStep, rawContrib, hs]
  | error e => simp [collectStep, rawContrib]

theorem collectStep_completed (total : Nat) (s : LoopState)
    (p : String × ItemOutcome) :
    (collectStep total s p).completed_count = s.completed_count + 1 := by
  obtain ⟨i, o⟩ := p
  cases o with
  | ok r => by_cases hs : r.success <;> simp [collectStep, hs]
  | error e => simp [collectStep]

theorem foldl_all_results (total : Nat) (comp : List (String × ItemOutcome))
    (s : LoopState) :
    (comp.foldl (collectStep total) s).all_results =
      s.all_results ++ contribCat resContrib comp := by
  induction comp generalizing s with
  | nil => simp [contribCat]
  | cons p rest ih =>
    rw [List.foldl_cons, ih, collectStep_all_results, List.append_assoc]
    rfl

theorem foldl_tokens (total : Nat) (comp : List (String × ItemOutcome))
    (s : LoopState) :
    (comp.foldl (collectStep total) s).total_tokens =
      s.total_tokens + contribSum tokContrib comp := by
  induction comp generalizing s with
  | nil => simp [contribSum]
  | cons p rest ih =>
    rw [List.foldl_cons, ih, collectStep_tokens, Nat.add_assoc]
    rfl

theorem foldl_errors (total : Nat) (comp : List (String × ItemOutcome))
    (s : LoopState) :
    (comp.foldl (collectStep total) s).processing_errors =
      s.processing_errors ++ contribCat errContrib comp := by
  induction comp generalizing s with
  | nil => simp [contribCat]
  | cons p rest ih =>
    rw [List.foldl_cons, ih, collectStep_errors, List.append_assoc]
    rfl

theorem foldl_raw (total : Nat) (comp : List (String × ItemOutcome))
    (s : LoopState) :
    (comp.foldl (collectStep total) s).raw_responses =
      s.raw_responses ++ contribCat rawContrib comp := by
  induction comp generalizing s with
  | nil => simp [contribCat]
  | cons p rest ih =>
    rw [List.foldl_cons, ih, collectStep_raw, List.append_assoc]
    rfl

theorem foldl_completed (total : Nat) (comp : List (String × ItemOutcome))
    (s : LoopState) :
    (comp.foldl (collectStep total) s).completed_count =
      s.completed_count + comp.length := by
  induction comp generalizing s with
  | nil => simp
  | cons p rest ih =>
    rw [List.foldl_cons, ih, collectStep_completed]
    simp
    omega

theorem foldl_trace (total : Nat) (comp : List (String × ItemOutcome))
    (s : LoopState) :
    (comp.foldl (collectStep total) s).trace =
      s.trace ++ traceFrom total s.completed_count comp := by
  induction comp generalizing s with
  | nil => simp [traceFrom]
  | cons p rest ih =>
    rw [List.foldl_cons, ih, collectStep_completed]
    obtain ⟨i, o⟩ := p
    cases o with
    | ok r =>
      by_cases hs : r.success <;>
        simp [collectStep, traceFrom, hs, List.append_assoc]
    | error e => simp [collectStep, traceFrom]

theorem process_eq_ok (ev : EvidenceData) (comp : List (String × ItemOutcome))
    (hs : ev.success = true) (hne : ev.data.isEmpty = false) :
    process_accounting_task true ev comp =
      (.ok { results := contribCat resContrib comp,
             summary :=
               { total_processed := (contribCat resContrib comp).length,
                 total_amount :=
                   ((contribCat resContrib comp).filterMap recordAmount).sum,
                 match_count :=
                   ((contribCat resContrib comp).filter
                     (recordMatchIs "一致")).length,
                 mismatch_count :=
                   ((contribCat resContrib comp).filter
                     (recordMatchIs "不一致")).length,
                 processing_errors := contribCat errContrib comp } }
         (contribCat rawContrib comp) (contribSum tokContrib comp)
         (contribCat errContrib comp),
       traceFrom ev.data.length 0 comp) := by
  simp [process_accounting_task, hs, hne, aggregateSummary,
    foldl_all_results, foldl_tokens, foldl_errors, foldl_raw, foldl_trace,
    initLoopState]

theorem contribCat_append (f : String × ItemOutcome → List β)
    (l1 l2 : List (String × ItemOutcome)) :
    contribCat f (l1 ++ l2) = contribCat f l1 ++ contribCat f l2 := by
  induction l1 with
  | nil => simp [contribCat]
  | cons p rest ih => simp [contribCat, ih]

theorem errContrib_of_okSuccess {p : String × ItemOutcome}
    (h : ∃ r, p.2 = Except.ok r ∧ r.success = true) : errContrib p = [] := by
  obtain ⟨r, ho, hsr⟩ := h
  obtain ⟨i, o⟩ := p
  simp only at ho
  subst ho
  simp [errContrib, hsr]

theorem contribCat_err_nil {l : List (String × ItemOutcome)}
    (h : ∀ p ∈ l, ∃ r, p.2 = Except.ok r ∧ r.success = true) :
    contribCat errContrib l = [] := by
  induction l with
  | nil => rfl
  | cons p rest ih =>
    rw [contribCat, errContrib_of_okSuccess (h p (by simp)),
      ih (fun q hq => h q (by simp [hq]))]
    rfl

theorem traceFrom_len (total : Nat) (comp : List (String × ItemOutcome))
    (c : Nat) (hok : ∀ p ∈ comp, ∃ r, p.2 = Except.ok r) :
    (traceFrom total c comp).length = comp.length := by
  induction comp generalizing c with
  | nil => rfl
  | cons p rest ih =>
    obtain ⟨r, ho⟩ := hok p (by simp)
    obtain ⟨i, o⟩ := p
    simp only at ho
    subst ho
    simp [traceFrom, ih (c + 1) (fun q hq => hok q (by simp [hq]))]

theorem traceFrom_map_count (total : Nat) (comp : List (String × ItemOutcome))
    (c : Nat) (hok : ∀ p ∈ comp, ∃ r, p.2 = Except.ok r) :
    (traceFrom total c comp).map (fun t => t.1) =
      (List.range comp.length).map (fun i => c + i + 1) := by
  induction comp generalizing c with
  | nil => rfl
  | cons p rest ih =>
    obtain ⟨r, ho⟩ := hok p (by simp)
    obtain ⟨i, o⟩ := p
    simp only at ho
    subst ho
    rw [traceFrom, List.length_cons, List.range_succ_eq_map]
    simp only [List.map_cons, List.map_map,
      ih (c + 1) (fun q hq => hok q (by simp [hq])), List.cons.injEq]
    refine ⟨trivial, ?_⟩
    apply List.map_congr_left
    intro a _
    simp only [Function.comp]
    omega

theorem traceFrom_map_total (total : Nat) (comp : List (String × ItemOutcome))
    (c : Nat) (hok : ∀ p ∈ comp, ∃ r, p.2 = Except.ok r) :
    (traceFrom total c comp).map (fun t => t.2.1) =
      List.replicate comp.length total := by
  induction comp generalizing c with
  | nil => rfl
  | cons p rest ih =>
    obtain ⟨r, ho⟩ := hok p (by simp)
    obtain ⟨i, o⟩ := p
    simp only at ho
    subst ho
    simp [traceFrom, List.replicate_succ,
      ih (c + 1) (fun q hq => hok q (by simp [hq]))]

theorem traceFrom_map_ids (total : Nat) (comp : List (String × ItemOutcome))
    (c : Nat) (hok : ∀ p ∈ comp, ∃ r, p.2 = Except.ok r) :
    (traceFrom total c comp).map (fun t => t.2.2) = comp.map Prod.fst := by
  induction comp generalizing c with
  | nil => rfl
  | cons p rest ih =>
    obtain ⟨r, ho⟩ := hok p (by simp)
    obtain ⟨i, o⟩ := p
    simp only at ho
    subst ho
    simp [traceFrom, ih (c + 1) (fun q hq => hok q (by simp [hq]))]

/-- Claim C1 (failure isolation during dispatch): for every batch, when one
item's future raises while every other future returns a successful dict,
the raised failure is caught and recorded as exactly one error entry naming
that item; every other item's records still reach the aggregate, and the
dispatcher itself returns a `success = True` dict rather than crashing. -/
theorem C1_failure_isolation (ev : EvidenceData)
    (pre post : List (String × ItemOutcome)) (bid e : String)
    (hs : ev.success = true) (hne : ev.data.isEmpty = false)
    (hpre : ∀ p ∈ pre, ∃ r, p.2 = Except.ok r ∧ r.success = true)
    (hpost : ∀ p ∈ post, ∃ r, p.2 = Except.ok r ∧ r.success = true) :
    ((process_accounting_task true ev
        (pre ++ (bid, Except.error e) :: post)).1).isSuccess = true ∧
    ((process_accounting_task true ev
        (pre ++ (bid, Except.error e) :: post)).1).errorsList =
      ["データ " ++ bid ++ ": 並列処理エラー - " ++ e] ∧
    ((process_accounting_task true ev
        (pre ++ (bid, Except.error e) :: post)).1).resultsList =
      contribCat resContrib pre ++ contribCat resContrib post := by
  rw [process_eq_ok ev _ hs hne]
  refine ⟨rfl, ?_, ?_⟩
  · show contribCat errContrib (pre ++ (bid, Except.error e) :: post) = _
    rw [contribCat_append, contribCat, contribCat_err_nil hpre,
      contribCat_err_nil hpost]
    rfl
  · show contribCat resContrib (pre ++ (bid, Except.error e) :: post) = _
    rw [contribCat_append, contribCat]
    rfl

/-- Claim C1 witness: a concrete three-item batch in which the middle item's
future raises. -/
theorem C1_failure_isolation_witness :
    ((process_accounting_task true sampleEv3
        ([("a", Except.ok (sampleOk "a" 1))] ++ ("b", Except.error "boom") ::
          [("c", Except.ok (sampleOk "c" 2))])).1).isSuccess = true ∧
    ((process_accounting_task true sampleEv3
        ([("a", Except.ok (sampleOk "a" 1))] ++ ("b", Except.error "boom") ::
          [("c", Except.ok (sampleOk "c" 2))])).1).errorsList =
      ["データ " ++ "b" ++ ": 並列処理エラー - " ++ "boom"] ∧
    ((process_accounting_task true sampleEv3
        ([("a", Except.ok (sampleOk "a" 1))] ++ ("b", Except.error "boom") ::
          [("c", Except.ok (sampleOk "c" 2))])).1).resultsList =
      contribCat resContrib [("a", Except.ok (sampleOk "a" 1))] ++
        contribCat resContrib [("c", Except.ok (sampleOk "c" 2))] :=
  C1_failure_isolation sampleEv3 [("a", Except.ok (sampleOk "a" 1))]
    [("c", Except.ok (sampleOk "c" 2))] "b" "boom" rfl rfl
    (by
      intro p hp
      simp only [List.mem_singleton] at hp
      subst hp
      exact ⟨sampleOk "a" 1, rfl, rfl⟩)
    (by
      intro p hp
      simp only [List.mem_singleton] at hp
      subst hp
      exact ⟨sampleOk "c" 2, rfl, rfl⟩)

/-- Claim C2 counterexample: two items are submitted in the order `a`, `b`;
when their futures complete in the order `b`, `a`, the aggregated record
list is ordered `b`, `a` — completion order, not the submission order
`a`, `b`, so the aggregate is not identical across completion orders. -/
theorem C2_counterexample :
    (((process_accounting_task true sampleEv2
        [("b", Except.ok (sampleOk "b" 1)),
         ("a", Except.ok (sampleOk "a" 1))]).1).resultsList).map recordDataId =
      ["b", "a"] ∧
    (((process_accounting_task true sampleEv2
        [("a", Except.ok (sampleOk "a" 1)),
         ("b", Except.ok (sampleOk "b" 1))]).1).resultsList).map recordDataId =
      ["a", "b"] ∧
    (["b", "a"] : List String) ≠ ["a", "b"] :=
  ⟨rfl, rfl, by decide⟩

/-- Claim C2 (corrected): the aggregated record list is the concatenation of
the successful items' record lists in completion order — the code never
re-sorts to submission order, so the aggregate order tracks whichever items
finish first. -/
theorem C2_completion_order (ev : EvidenceData)
    (comp : List (String × ItemOutcome))
    (hs : ev.success = true) (hne : ev.data.isEmpty = false) :
    ((process_accounting_task true ev comp).1).resultsList =
      contribCat resContrib comp := by
  rw [process_eq_ok ev comp hs hne]
  rfl

/-- Claim C2 witness: the corrected statement instantiated on the concrete
reversed-completion batch. -/
theorem C2_completion_order_witness :
    ((process_accounting_task true sampleEv2
        [("b", Except.ok (sampleOk "b" 1)),
         ("a", Except.ok (sampleOk "a" 1))]).1).resultsList =
      contribCat resContrib
        [("b", Except.ok (sampleOk "b" 1)),
         ("a", Except.ok (sampleOk "a" 1))] :=
  C2_completion_order sampleEv2
    [("b", Except.ok (sampleOk "b" 1)), ("a", Except.ok (sampleOk "a" 1))]
    rfl rfl

/-- Claim C3 counterexample: a single item whose LLM call returned text but
whose response failed validation — the worker's dict carries the raw text,
yet the returned `raw_responses` map is empty, so preservation is not
unconditional. -/
theorem C3_counterexample :
    ((process_accounting_task true sampleEv1
        [("a", Except.ok (sampleFail "a" 5))]).1).rawList = [] ∧
    (sampleFail "a" 5).raw_response = some "raw-a" :=
  ⟨rfl, rfl⟩

/-- Claim C3 (corrected): the returned `raw_responses` map contains exactly
the raw text of the items whose dict has `success = True` and carries a
`raw_response`; raw text returned with failed (for example
validation-failed) items is dropped by the aggregation loop. -/
theorem C3_raw_only_on_success (ev : EvidenceData)
    (comp : List (String × ItemOutcome))
    (hs : ev.success = true) (hne : ev.data.isEmpty = false) :
    ((process_accounting_task true ev comp).1).rawList =
      contribCat rawContrib comp := by
  rw [process_eq_ok ev comp hs hne]
  rfl

/-- Claim C3 witness: a batch mixing one successful and one
validation-failed item keeps only the successful item's raw text. -/
theorem C3_raw_only_on_success_witness :
    ((process_accounting_task true sampleEv2
        [("a", Except.ok (sampleOk "a" 1)),
         ("b", Except.ok (sampleFail "b" 5))]).1).rawList =
      contribCat rawContrib
        [("a", Except.ok (sampleOk "a" 1)),
         ("b", Except.ok (sampleFail "b" 5))] ∧
    contribCat rawContrib
        [("a", Except.ok (sampleOk "a" 1)),
         ("b", Except.ok (sampleFail "b" 5))] = [("a", "raw-a")] :=
  ⟨C3_raw_only_on_success sampleEv2
      [("a", Except.ok (sampleOk "a" 1)), ("b", Except.ok (sampleFail "b" 5))]
      rfl rfl,
    rfl⟩

/-- Claim C7 counterexample: a single validation-failed item whose dict
reports 5 tokens used — the returned total is 0, so failed items' reported
token counts are not included. -/
theorem C7_counterexample :
    ((process_accounting_task true sampleEv1
        [("a", Except.ok (sampleFail "a" 5))]).1).tokens = 0 ∧
    (sampleFail "a" 5).tokens_used = some 5 :=
  ⟨rfl, rfl⟩

/-- Claim C7 (corrected): the returned token total is the sum of the token
counts reported by the items whose dict has `success = True`; a failed
item's reported count contributes nothing because tokens accumulate inside
the success branch only. -/
theorem C7_tokens_success_only (ev : EvidenceData)
    (comp : List (String × ItemOutcome))
    (hs : ev.success = true) (hne : ev.data.isEmpty = false) :
    ((process_accounting_task true ev comp).1).tokens =
      contribSum tokContrib comp := by
  rw [process_eq_ok ev comp hs hne]
  rfl

/-- Claim C7 witness: one successful item reporting 3 tokens plus one failed
item reporting 5 accumulates a total of 3. -/
theorem C7_tokens_success_only_witness :
    ((process_accounting_task true sampleEv2
        [("a", Except.ok (sampleOk "a" 3)),
         ("b", Except.ok (sampleFail "b" 5))]).1).tokens =
      contribSum tokContrib
        [("a", Except.ok (sampleOk "a" 3)),
         ("b", Except.ok (sampleFail "b" 5))] ∧
    contribSum tokContrib
        [("a", Except.ok (sampleOk "a" 3)),
         ("b", Except.ok (sampleFail "b" 5))] = 3 :=
  ⟨C7_tokens_success_only sampleEv2
      [("a", Except.ok (sampleOk "a" 3)), ("b", Except.ok (sampleFail "b" 5))]
      rfl rfl,
    rfl⟩

/-- Claim C4 (progress monotonicity): for a batch whose futures all return a
dict (as `_process_single_data` does on every path, since it catches every
exception), the progress callback is invoked exactly N times; its
`completed_count` argument takes every value from 1 to N exactly once in
increasing order, its `total_count` argument is always the batch size, and
each invocation carries the completing item's id.  For N = 0 the callback
is never invoked. -/
theorem C4_progress_monotonic (ev : EvidenceData)
    (comp : List (String × ItemOutcome))
    (hs : ev.success = true) (hlen : comp.length = ev.data.length)
    (hok : ∀ p ∈ comp, ∃ r, p.2 = Except.ok r) :
    ((process_accounting_task true ev comp).2).length = comp.length ∧
    ((process_accounting_task true ev comp).2).map (fun t => t.1) =
      (List.range comp.length).map (fun i => i + 1) ∧
    ((process_accounting_task true ev comp).2).map (fun t => t.2.1) =
      List.replicate comp.length ev.data.length ∧
    ((process_accounting_task true ev comp).2).map (fun t => t.2.2) =
      comp.map Prod.fst := by
  cases hne : ev.data.isEmpty with
  | true =>
    have hnil : comp = [] := by
      apply List.eq_nil_of_length_eq_zero
      rw [hlen, List.isEmpty_iff.mp hne]
      rfl
    subst hnil
    simp [process_accounting_task, hs, hne]
  | false =>
    rw [process_eq_ok ev comp hs hne]
    refine ⟨traceFrom_len _ _ _ hok, ?_, traceFrom_map_total _ _ _ hok,
      traceFrom_map_ids _ _ _ hok⟩
    calc
      (traceFrom ev.data.length 0 comp).map (fun t => t.1) =
          (List.range comp.length).map (fun i => 0 + i + 1) :=
        traceFrom_map_count _ _ _ hok
      _ = (List.range comp.length).map (fun i => i + 1) := by
        apply List.map_congr_left
        intro a _
        omega

/-- Claim C4 witness: a concrete two-item batch completing in reversed
order still yields the callback trace with counts 1, 2 and the completing
ids. -/
theorem C4_progress_monotonic_witness :
    ((process_accounting_task true sampleEv2
        [("b", Except.ok (sampleOk "b" 1)),
         ("a", Except.ok (sampleOk "a" 1))]).2).length =
      ([("b", Except.ok (sampleOk "b" 1)),
        ("a", Except.ok (sampleOk "a" 1))] :
        List (String × ItemOutcome)).length ∧
    ((process_accounting_task true sampleEv2
        [("b", Except.ok (sampleOk "b" 1)),
         ("a", Except.ok (sampleOk "a" 1))]).2).map (fun t => t.1) =
      (List.range ([("b", Except.ok (sampleOk "b" 1)),
        ("a", Except.ok (sampleOk "a" 1))] :
        List (String × ItemOutcome)).length).map (fun i => i + 1) ∧
    ((process_accounting_task true sampleEv2
        [("b", Except.ok (sampleOk "b" 1)),
         ("a", Except.ok (sampleOk "a" 1))]).2).map (fun t => t.2.1) =
      List.replicate ([("b", Except.ok (sampleOk "b" 1)),
        ("a", Except.ok (sampleOk "a" 1))] :
        List (String × ItemOutcome)).length sampleEv2.data.length ∧
    ((process_accounting_task true sampleEv2
        [("b", Except.ok (sampleOk "b" 1)),
         ("a", Except.ok (sampleOk "a" 1))]).2).map (fun t => t.2.2) =
      ([("b", Except.ok (sampleOk "b" 1)),
        ("a", Except.ok (sampleOk "a" 1))] :
        List (String × ItemOutcome)).map Prod.fst :=
  C4_progress_monotonic sampleEv2
    [("b", Except.ok (sampleOk "b" 1)), ("a", Except.ok (sampleOk "a" 1))]
    rfl rfl
    (by
      intro p hp
      simp only [List.mem_cons, List.mem_singleton] at hp
      rcases hp with rfl | rfl | hp
      · exact ⟨sampleOk "b" 1, rfl⟩
      · exact ⟨sampleOk "a" 1, rfl⟩
      · exact absurd hp (List.not_mem_nil p))

/-- Claim C8 counterexample: an empty work-item collection makes
`process_accounting_task` return a `success = False` error dict ("no valid
evidence data"), not a `success = true` or nothing-to-do result. -/
theorem C8_counterexample :
    process_accounting_task true { success := true, data := [] } [] =
      (.failure "有効な証跡データがありません", []) ∧
    (ProcessResult.failure "有効な証跡データがありません").isSuccess = false :=
  ⟨rfl, rfl⟩

/-- Claim C8 (corrected): an empty work-item collection is rejected
immediately with `success = false` and the error
"有効な証跡データがありません"; no future is dispatched (the result is
independent of any completion outcomes) and the progress callback is never
invoked.  The task engine's validator likewise rejects the batch, so
`execute_accounting_task` returns the corresponding error dict with the
engine state untouched. -/
theorem C8_empty_batch (ev : EvidenceData)
    (comp : List (String × ItemOutcome))
    (hs : ev.success = true) (he : ev.data = []) :
    process_accounting_task true ev comp =
      (.failure "有効な証跡データがありません", []) ∧
    validate_evidence_data ev = ["証跡データが空です"] ∧
    ∀ (st : EngineState) (tid : String) (cfg : TaskConfig)
      (mgr : Option ExcelMgr) (coc : Option OutputConfig) (cs : Bool)
      (wc : Except String WriteResult) (ex : Option String),
      st.task_configs.lookup tid = some cfg →
      execute_accounting_task st tid ev mgr coc cs comp wc ex =
        (.errorResult "証跡データエラー: 証跡データが空です", st) := by
  refine ⟨?_, ?_, ?_⟩
  · simp [process_accounting_task, hs, he]
  · simp [validate_evidence_data, hs, he]
  · intro st tid cfg mgr coc cs wc ex hcfg
    simp only [execute_accounting_task, hcfg, validate_evidence_data, hs, he]
    rfl

/-- Claim C8 witness: the corrected statement instantiated on a concrete
empty batch and a concrete engine. -/
theorem C8_empty_batch_witness :
    process_accounting_task true { success := true, data := [] } [] =
      (.failure "有効な証跡データがありません", []) ∧
    validate_evidence_data { success := true, data := [] } =
      ["証跡データが空です"] ∧
    execute_accounting_task sampleEngine "t" { success := true, data := [] }
        (some sampleMgr) (some sampleOC) true []
        (Except.ok { success := true }) none =
      (.errorResult "証跡データエラー: 証跡データが空です", sampleEngine) := by
  have h := C8_empty_batch { success := true, data := [] } [] rfl rfl
  exact ⟨h.1, h.2.1,
    h.2.2 sampleEngine "t"
      { name := some "T",
        output_config := some
          { has_target_sheet := true, has_start_row := true,
            has_column_definitions := true } }
      (some sampleMgr) (some sampleOC) true (Except.ok { success := true })
      none rfl⟩

/-- Claim C5 (severity/passed consistency): any invoice-check record with
severity `"error"` and `passed = true` fails `CheckResult` validation, and
every record accepted as valid satisfies: severity `error` implies
`passed = false`. -/
theorem C5_severity_passed_consistency :
    (∀ m d : String, (mkCheckResult true "error" m d).isOk = false) ∧
    (∀ (p : Bool) (s m d : String) (r : CheckResult),
      mkCheckResult p s m d = .ok r → r.severity = .error →
        r.passed = false) := by
  constructor
  · intro m d
    rfl
  · intro p s m d r hok hsev
    cases hps : parseSeverity s with
    | error e =>
      simp only [mkCheckResult, hps] at hok
      exact Except.noConfusion hok
    | ok sev =>
      simp only [mkCheckResult, hps] at hok
      split_ifs at hok with h1 h2 h3
      rw [Except.ok.injEq] at hok
      subst hok
      have hsev2 : sev = SeverityLevel.error := hsev
      subst hsev2
      simp only [beq_self_eq_true, Bool.true_and, Bool.not_eq_true] at h1
      exact h1

/-- Claim C5 witness: "error" with `passed = true` is rejected, while the
same record with `passed = false` validates and indeed carries
`passed = false`. -/
theorem C5_severity_passed_consistency_witness :
    (mkCheckResult true "error" "NG" "").isOk = false ∧
    ({ passed := false, severity := .error, message := "NG", details := "" } :
      CheckResult).passed = false :=
  ⟨C5_severity_passed_consistency.1 "NG" "",
    C5_severity_passed_consistency.2 false "error" "NG" ""
      { passed := false, severity := .error, message := "NG", details := "" }
      rfl rfl⟩

/-- Claim C6 (corrected): for every raw text, `_create_fallback_response`
either returns the re-parsed JSON substring of the text with missing
`data_id` fields filled from the caller-supplied id, or returns the default
degraded dict — whose single record carries status `"エラー"` (not the
ASCII literal `"error"`), an empty `result_data` payload and a note
containing the original error message; every path returns a value. -/
theorem C6_validator_totality (parseJson : String → Option Json)
    (text data_id err : String) :
    ((∃ j fj, parseJson (String.mk (extractJsonText text.toList)) = some j ∧
        fillResultsIds data_id j = some fj ∧
        create_fallback_response parseJson text data_id err = fj) ∨
      create_fallback_response parseJson text data_id err =
        defaultFallback data_id err) ∧
    jsonGet (firstResult (defaultFallback data_id err)) "status" =
      some (.str "エラー") ∧
    jsonGet (firstResult (defaultFallback data_id err)) "result_data" =
      some (.obj []) ∧
    jsonGet (firstResult (defaultFallback data_id err)) "notes" =
      some (.str ("レスポンス解析エラー: " ++ err)) := by
  refine ⟨?_, rfl, rfl, rfl⟩
  cases hp : parseJson (String.mk (extractJsonText text.toList)) with
  | none =>
    right
    simp only [create_fallback_response, hp]
  | some j =>
    cases hf : fillResultsIds data_id j with
    | none =>
      right
      simp only [create_fallback_response, hp, hf]
    | some fj =>
      left
      refine ⟨j, fj, rfl, hf, ?_⟩
      simp only [create_fallback_response, hp, hf]

/-- Claim C6 counterexample: on a text where both the primary parse and the
salvage parse fail, the degraded record's status field is the string
`"エラー"`, which differs from the claimed literal `"error"`. -/
theorem C6_counterexample :
    create_fallback_response (fun _ => none) "no json" "d1" "boom" =
      defaultFallback "d1" "boom" ∧
    jsonGet (firstResult (defaultFallback "d1" "boom")) "status" =
      some (.str "エラー") ∧
    ("エラー" : String) ≠ "error" :=
  ⟨rfl, rfl, by decide⟩

/-- Claim C9 (corrected): when the Excel write step fails after a successful
dispatch and aggregation, `execute_accounting_task` returns the bare
write-result dict: the run reports `success = false`, but the aggregated
computed records are not part of the returned value — the caller cannot
retrieve them from the result. -/
theorem C9_write_failure_drops_records (st : EngineState) (tid : String)
    (cfg : TaskConfig) (ev : EvidenceData) (mgr : ExcelMgr)
    (oc : OutputConfig) (comp : List (String × ItemOutcome))
    (writeCall : Except String WriteResult) (ex : Option String)
    (hcfg : st.task_configs.lookup tid = some cfg)
    (hs : ev.success = true) (hne : ev.data.isEmpty = false)
    (hoc : validate_output_config oc = [])
    (hwb : mgr.workbook = true)
    (hwf : (write_results_to_excel (contribCat resContrib comp)
        writeCall).success = false) :
    (execute_accounting_task st tid ev (some mgr) (some oc) true comp
        writeCall ex).1 =
      .writeFailure
        (write_results_to_excel (contribCat resContrib comp) writeCall) ∧
    ((execute_accounting_task st tid ev (some mgr) (some oc) true comp
        writeCall ex).1).successFlag = false ∧
    ((execute_accounting_task st tid ev (some mgr) (some oc) true comp
        writeCall ex).1).recordsExposed = none := by
  have hev : validate_evidence_data ev = [] := by
    simp [validate_evidence_data, hs, hne]
  have hexec :
      (execute_accounting_task st tid ev (some mgr) (some oc) true comp
        writeCall ex).1 =
        .writeFailure
          (write_results_to_excel (contribCat resContrib comp) writeCall) := by
    simp only [execute_accounting_task, hcfg, hev, hoc, hwb, hwf,
      process_eq_ok ev comp hs hne, List.isEmpty_nil, Bool.not_false,
      Bool.not_true, if_true, if_false, Bool.false_eq_true]
  refine ⟨hexec, ?_, ?_⟩
  · rw [hexec]
    simp [ExecResult.successFlag, hwf]
  · rw [hexec]
    rfl

/-- Claim C9 counterexample: a concrete one-item run whose dispatch
produced one record and whose write fails — the returned dict reports
failure and exposes no records. -/
theorem C9_counterexample :
    ((execute_accounting_task sampleEngine "t" sampleEv1 (some sampleMgr)
        (some sampleOC) true [("a", Except.ok (sampleOk "a" 2))]
        (Except.ok
          { success := false
            error := some "ワークブックが読み込まれていません" })
        none).1).recordsExposed = none ∧
    ((execute_accounting_task sampleEngine "t" sampleEv1 (some sampleMgr)
        (some sampleOC) true [("a", Except.ok (sampleOk "a" 2))]
        (Except.ok
          { success := false
            error := some "ワークブックが読み込まれていません" })
        none).1).successFlag = false ∧
    (((process_accounting_task true sampleEv1
        [("a", Except.ok (sampleOk "a" 2))]).1).resultsList).map
      recordDataId = ["a"] :=
  ⟨rfl, rfl, rfl⟩

/-- Claim C9 witness: the corrected statement instantiated on the concrete
failing-write run. -/
theorem C9_write_failure_drops_records_witness :
    (execute_accounting_task sampleEngine "t" sampleEv1 (some sampleMgr)
        (some sampleOC) true [("a", Except.ok (sampleOk "a" 2))]
        (Except.ok
          { success := false
            error := some "ワークブックが読み込まれていません" }) none).1 =
      .writeFailure
        (write_results_to_excel
          (contribCat resContrib [("a", Except.ok (sampleOk "a" 2))])
          (Except.ok
            { success := false
              error := some "ワークブックが読み込まれていません" })) ∧
    ((execute_accounting_task sampleEngine "t" sampleEv1 (some sampleMgr)
        (some sampleOC) true [("a", Except.ok (sampleOk "a" 2))]
        (Except.ok
          { success := false
            error := some "ワークブックが読み込まれていません" })
        none).1).successFlag = false ∧
    ((execute_accounting_task sampleEngine "t" sampleEv1 (some sampleMgr)
        (some sampleOC) true [("a", Except.ok (sampleOk "a" 2))]
        (Except.ok
          { success := false
            error := some "ワークブックが読み込まれていません" })
        none).1).recordsExposed = none :=
  C9_write_failure_drops_records sampleEngine "t"
    { name := some "T",
      output_config := some
        { has_target_sheet := true, has_start_row := true,
          has_column_definitions := true } }
    sampleEv1 sampleMgr sampleOC [("a", Except.ok (sampleOk "a" 2))]
    (Except.ok
      { success := false
        error := some "ワークブックが読み込まれていません" }) none
    rfl rfl rfl rfl rfl rfl

/-- Claim C10 (excel-manager field restoration is path-dependent): once the
guards pass, `execute_accounting_task` installs the caller's manager in the
engine's `excel_manager` field; it restores the saved original on the
fully-successful path and on the outer-exception path, but returns with the
caller's manager still installed on the LLM-failure path (here triggered by
an unset client) and on the write-failure path. -/
theorem C10_excel_manager_paths (st : EngineState) (tid : String)
    (cfg : TaskConfig) (ev : EvidenceData) (mgr : ExcelMgr)
    (oc : OutputConfig) (comp : List (String × ItemOutcome))
    (writeCall : Except String WriteResult)
    (hcfg : st.task_configs.lookup tid = some cfg)
    (hs : ev.success = true) (hne : ev.data.isEmpty = false)
    (hoc : validate_output_config oc = [])
    (hwb : mgr.workbook = true) :
    ((execute_accounting_task st tid ev (some mgr) (some oc) false comp
        writeCall none).2).excel_manager = some mgr ∧
    ((write_results_to_excel (contribCat resContrib comp) writeCall).success =
        false →
      ∀ ex : Option String,
        ((execute_accounting_task st tid ev (some mgr) (some oc) true comp
          writeCall ex).2).excel_manager = some mgr) ∧
    ((write_results_to_excel (contribCat resContrib comp) writeCall).success =
        true →
      ((execute_accounting_task st tid ev (some mgr) (some oc) true comp
        writeCall none).2).excel_manager = st.excel_manager) ∧
    ((write_results_to_excel (contribCat resContrib comp) writeCall).success =
        true →
      ∀ e : String,
        ((execute_accounting_task st tid ev (some mgr) (some oc) true comp
          writeCall (some e)).2).excel_manager = st.excel_manager) := by
  have hev : validate_evidence_data ev = [] := by
    simp [validate_evidence_data, hs, hne]
  refine ⟨?_, ?_, ?_, ?_⟩
  · simp [execute_accounting_task, hcfg, hev, hoc, hwb,
      process_accounting_task]
  · intro hwf ex
    simp [execute_accounting_task, hcfg, hev, hoc, hwb, hwf,
      process_eq_ok ev comp hs hne]
  · intro hwt
    simp [execute_accounting_task, hcfg, hev, hoc, hwb, hwt,
      process_eq_ok ev comp hs hne]
  · intro hwt e
    simp [execute_accounting_task, hcfg, hev, hoc, hwb, hwt,
      process_eq_ok ev comp hs hne]

/-- Claim C10 witness: on a concrete run, the write-failure path leaves the
caller's manager installed, while the successful path restores the engine's
original manager. -/
theorem C10_excel_manager_paths_witness :
    ((execute_accounting_task sampleEngine "t" sampleEv1 (some sampleMgr)
        (some sampleOC) true [("a", Except.ok (sampleOk "a" 2))]
        (Except.ok { success := false }) none).2).excel_manager =
      some sampleMgr ∧
    ((execute_accounting_task sampleEngine "t" sampleEv1 (some sampleMgr)
        (some sampleOC) true [("a", Except.ok (sampleOk "a" 2))]
        (Except.ok { success := true }) none).2).excel_manager =
      sampleEngine.excel_manager :=
  ⟨(C10_excel_manager_paths sampleEngine "t"
      { name := some "T",
        output_config := some
          { has_target_sheet := true, has_start_row := true,
            has_column_definitions := true } }
      sampleEv1 sampleMgr sampleOC [("a", Except.ok (sampleOk "a" 2))]
      (Except.ok { success := false }) rfl rfl rfl rfl rfl).2.1 rfl none,
    (C10_excel_manager_paths sampleEngine "t"
      { name := some "T",
        output_config := some
          { has_target_sheet := true, has_start_row := true,
            has_column_definitions := true } }
      sampleEv1 sampleMgr sampleOC [("a", Except.ok (sampleOk "a" 2))]
      (Except.ok { success := true }) rfl rfl rfl rfl rfl).2.2.1 rfl⟩
